import Mathlib

/-!
Shallow embedding of the repository's single source file, api/generate.py.

Modelling conventions:
- Python floats are modelled by exact rationals.  The source float constants
  8.27, 11.69, 0.2, 0.03 denote the rationals 827/100, 1169/100, 1/5, 3/100;
  at every point where the source converts a float to an int the two models
  agree (checked by hand against IEEE-754 double semantics for the A4
  constants, where int(8.27*300) = 2481 and int(11.69*300) = 3507 in both).
- Python int() truncates toward zero: pyInt below.
- Python floor division a // b is Int.fdiv.
- Pillow image sizes are nonnegative machine integers, modelled by Nat.
- The network (SerpAPI search, per-URL image download) is modelled by an
  explicit World record of oracle outcomes, and the handler returns the list
  of outbound network calls it performed alongside its HTTP response.
-/

namespace ESMaker

/-- Python int() conversion on a rational: truncation toward zero. -/
def pyInt (q : ℚ) : ℤ := if q < 0 then ⌈q⌉ else ⌊q⌋

/-- Source: A4_DPI = 300. -/
def A4_DPI : ℤ := 300

/-- Source: A4_W_PX = int(8.27 * A4_DPI).  Evaluates to 2481. -/
def A4_W_PX : ℤ := pyInt ((827 / 100 : ℚ) * (A4_DPI : ℚ))

/-- Source: A4_H_PX = int(11.69 * A4_DPI).  Evaluates to 3507. -/
def A4_H_PX : ℤ := pyInt ((1169 / 100 : ℚ) * (A4_DPI : ℚ))

/-- A decoded Pillow RGB image: only the size is relevant to the layout code. -/
structure SourceImage where
  width : ℕ
  height : ℕ
  deriving DecidableEq

/-- The page produced by fit_to_a4_allow_upscale: a canvas of pageW x pageH
pixels filled with the background color, with the resized source image
(targetW x targetH pixels) pasted at offset (offX, offY). -/
structure FittedPage where
  pageW : ℤ
  pageH : ℤ
  targetW : ℤ
  targetH : ℤ
  offX : ℤ
  offY : ℤ
  background : String
  deriving DecidableEq

/-- Source lines 34-37: orientation swaps the A4 page dimensions.  Width. -/
def pageWidth (o : String) : ℤ := if o = "landscape" then A4_H_PX else A4_W_PX

/-- Source lines 34-37: orientation swaps the A4 page dimensions.  Height. -/
def pageHeight (o : String) : ℤ := if o = "landscape" then A4_W_PX else A4_H_PX

/-- Source line 40: margin_ratio = max(0.0, min(0.2, float(margin_ratio))). -/
def clampMargin (m : ℚ) : ℚ := max 0 (min (1 / 5) m)

/-- Source line 41: margin = int(margin_ratio * page_w), after clamping. -/
def marginPx (o : String) (m : ℚ) : ℤ := pyInt (clampMargin m * (pageWidth o : ℚ))

/-- Source line 42: max_w = page_w - 2 * margin. -/
def contentW (o : String) (m : ℚ) : ℤ := pageWidth o - 2 * marginPx o m

/-- Source line 43: max_h = page_h - 2 * margin. -/
def contentH (o : String) (m : ℚ) : ℤ := pageHeight o - 2 * marginPx o m

/-- Source line 49: scale = min(max_w / iw, max_h / ih). -/
def scaleFactor (img : SourceImage) (o : String) (m : ℚ) : ℚ :=
  min ((contentW o m : ℚ) / (img.width : ℚ)) ((contentH o m : ℚ) / (img.height : ℚ))

/-- Source lines 50-59, the success path of fit_to_a4_allow_upscale:
target_w = max(1, int(iw * scale)), target_h = max(1, int(ih * scale)),
canvas = new white page, x = (page_w - target_w) // 2,
y = (page_h - target_h) // 2. -/
def fittedPage (img : SourceImage) (o : String) (m : ℚ) : FittedPage :=
  ⟨pageWidth o, pageHeight o,
   max 1 (pyInt ((img.width : ℚ) * scaleFactor img o m)),
   max 1 (pyInt ((img.height : ℚ) * scaleFactor img o m)),
   (pageWidth o - max 1 (pyInt ((img.width : ℚ) * scaleFactor img o m))).fdiv 2,
   (pageHeight o - max 1 (pyInt ((img.height : ℚ) * scaleFactor img o m))).fdiv 2,
   "white"⟩

/-- Source lines 27-60: fit_to_a4_allow_upscale raises ValueError on a
zero-sized image (iw <= 0 or ih <= 0, which for Nat sizes means = 0) and
otherwise returns the fitted page. -/
def fit_to_a4_allow_upscale (img : SourceImage) (o : String) (m : ℚ) :
    Except String FittedPage :=
  if img.width = 0 ∨ img.height = 0 then Except.error "Invalid image size."
  else Except.ok (fittedPage img o m)

/-- Source lines 62-67: choose_orientation_auto.  aspect = width / height if
height is nonzero (Python truthiness) else 1.0; landscape iff
aspect >= threshold. -/
def choose_orientation_auto (img : SourceImage) (threshold : ℚ) : String :=
  if (if img.height ≠ 0 then (img.width : ℚ) / (img.height : ℚ) else 1) ≥ threshold
  then "landscape" else "portrait"

/-- Source line 182: orient = choose_orientation_auto(img) if
orientation == "auto" else orientation (threshold left at its default 1.0). -/
def selectOrient (mode : String) (img : SourceImage) : String :=
  if mode = "auto" then choose_orientation_auto img 1 else mode

/-- The multi-page PDF document built by make_pdf_bytes: the first page is the
base, the remaining pages are appended in order, tagged with a resolution. -/
structure PdfDoc where
  first : FittedPage
  rest : List FittedPage
  resolution : ℤ
  deriving DecidableEq

/-- All pages of a document, in order. -/
def PdfDoc.pages (d : PdfDoc) : List FittedPage := d.first :: d.rest

/-- Source lines 69-78: make_pdf_bytes raises ValueError on an empty page
list, else saves pages[0] with append_images=pages[1:]. -/
def make_pdf_bytes (pages : List FittedPage) (dpi : ℤ) : Except String PdfDoc :=
  match pages with
  | [] => Except.error "No pages to save."
  | p :: rest => Except.ok ⟨p, rest, dpi⟩

/-- One result object of the search API: source lines 105-110 read the
"original" key with "thumbnail" as fallback. -/
structure SerpItem where
  original : Option String
  thumbnail : Option String
  deriving DecidableEq

/-- Python `a or b` on an optional string: a if it is present and non-empty
(truthy), else b. -/
def pyOr (a : Option String) (b : Option String) : Option String :=
  match a with
  | some s => if s = "" then b else some s
  | none => b

/-- Source line 108: u = item.get("original") or item.get("thumbnail"),
kept (line 109) only if truthy. -/
def itemUrl (item : SerpItem) : Option String :=
  match pyOr item.original item.thumbnail with
  | some s => if s = "" then none else some s
  | none => none

/-- Source line 90: num = max(1, min(20, int(num or 6))).  The argument is
already an int, so int() is the identity; `num or 6` replaces the falsy
value 0 by 6. -/
def serpapiClampNum (num : ℤ) : ℤ := max 1 (min 20 (if num = 0 then 6 else num))

/-- Source lines 81-111: google_images_serpapi.  The one network call (the
search GET) is abstracted as its outcome: an error (an exception that the
handler's outer try converts to a 500) or the parsed images_results list. -/
def google_images_serpapi (query : String) (num : ℤ) (api_key : String)
    (searchOutcome : Except String (List SerpItem)) : Except String (List String) :=
  if api_key = "" then Except.error "Missing SERPAPI_KEY environment variable."
  else
    match searchOutcome with
    | Except.error e => Except.error e
    | Except.ok data => Except.ok ((data.take (serpapiClampNum num).toNat).filterMap itemUrl)

/-- Characters Python str.strip() removes (ASCII whitespace). -/
def isPySpace (c : Char) : Bool :=
  (c == ' ') || (c == '\t') || (c == '\n') || (c == '\r') || (c == '\x0b') || (c == '\x0c')

/-- Python str.strip(): drop leading and trailing whitespace. -/
def pyStrip (s : String) : String :=
  ⟨((s.data.dropWhile isPySpace).reverse.dropWhile isPySpace).reverse⟩

/-- The parsed JSON body of a POST request, with absent fields as none.
Field marginVal is the JSON field named margin_ratio; field orientMode is
the JSON field named orientation.  Numeric fields are taken as already
well-typed (the int()/float() conversions of lines 163 and 165 succeed). -/
structure RequestBody where
  querytext : Option String
  num_images : Option ℤ
  orientMode : Option String
  marginVal : Option ℚ
  filename : Option String
  deriving DecidableEq

/-- Source line 162: query = (data.get("querytext") or "").strip(). -/
def effQuery (body : RequestBody) : String := pyStrip (body.querytext.getD "")

/-- Source line 163: num_images = int(data.get("num_images", 6)). -/
def effNum (body : RequestBody) : ℤ := body.num_images.getD 6

/-- Python str.lower() on ASCII input: lowercase every character. -/
def pyLower (s : String) : String := ⟨s.data.map Char.toLower⟩

/-- Source line 164: orientation = (data.get("orientation") or "auto").strip().lower(). -/
def effOrient (body : RequestBody) : String :=
  pyLower (pyStrip ((pyOr body.orientMode (some "auto")).getD "auto"))

/-- Source line 165: margin_ratio = float(data.get("margin_ratio", 0.03)). -/
def effMargin (body : RequestBody) : ℚ := body.marginVal.getD (3 / 100)

/-- Source line 166: filename = (data.get("filename") or "google_images.pdf").strip(). -/
def effFilename (body : RequestBody) : String :=
  pyStrip ((pyOr body.filename (some "google_images.pdf")).getD "google_images.pdf")

/-- An outbound network call made while serving a request: the single search
GET of google_images_serpapi, or one image download GET per URL. -/
inductive NetCall where
  | searchCall (query : String) (num : ℤ)
  | fetchCall (url : String)
  deriving DecidableEq

/-- The handler's reply: a JSON error body with an HTTP status code, or a
200 PDF attachment. -/
inductive HttpResponse where
  | jsonError (code : ℤ) (msg : String)
  | pdfFile (doc : PdfDoc) (filename : String)
  deriving DecidableEq

/-- Oracle outcomes for the external collaborators: the search response and,
per URL, the downloaded-and-decoded image (none = the download or decode
raised, i.e. a per-URL failure). -/
structure World where
  searchOutcome : Except String (List SerpItem)
  fetchImage : String → Option SourceImage

/-- Source lines 179-184, one loop iteration: download the URL, pick the
orientation (auto or verbatim), fit to A4; any exception is caught and the
URL is skipped (none). -/
def processUrl (world : World) (mode : String) (m : ℚ) (u : String) : Option FittedPage :=
  (world.fetchImage u).bind fun img =>
    (fit_to_a4_allow_upscale img (selectOrient mode img) m).toOption

/-- The URL list produced by google_images_serpapi from a successful search
response: first clamped-num items, each yielding its original-or-thumbnail
URL when truthy. -/
def requestUrls (body : RequestBody) (items : List SerpItem) : List String :=
  (items.take (serpapiClampNum (effNum body)).toNat).filterMap itemUrl

/-- Source lines 151-195: handler.do_POST on an already-parsed JSON body.
The env argument is the raw SERPAPI_KEY environment value (line 168 strips
it).  Returns the response together with the outbound network calls made.
The outer try/except of lines 152/194 maps any uncaught exception to a 500
"Internal error" JSON reply. -/
def do_POST (body : RequestBody) (env : String) (world : World) :
    HttpResponse × List NetCall :=
  let query := effQuery body
  let serp_key := pyStrip env
  if serp_key = "" then (HttpResponse.jsonError 500 "Missing SERPAPI_KEY env var", [])
  else if query = "" then (HttpResponse.jsonError 400 "querytext is required", [])
  else
    let searchCalls := [NetCall.searchCall query (serpapiClampNum (effNum body))]
    match google_images_serpapi query (effNum body) serp_key world.searchOutcome with
    | Except.error _ => (HttpResponse.jsonError 500 "Internal error", searchCalls)
    | Except.ok urls =>
      if urls = [] then (HttpResponse.jsonError 502 "No image URLs returned", searchCalls)
      else
        let calls := searchCalls ++ urls.map NetCall.fetchCall
        let pages := urls.filterMap (processUrl world (effOrient body) (effMargin body))
        if pages = [] then (HttpResponse.jsonError 502 "No pages created", calls)
        else
          match make_pdf_bytes pages A4_DPI with
          | Except.error _ => (HttpResponse.jsonError 500 "Internal error", calls)
          | Except.ok doc => (HttpResponse.pdfFile doc (effFilename body), calls)

/-! ### Concrete fixtures used by witnesses and counterexamples -/

/-- A world in which the search succeeds with no results and every image
download fails; used where the oracle outcome is irrelevant. -/
def noopWorld : World := ⟨Except.ok [], fun _ => none⟩

/-- A request body naming a query and five images, all other fields absent. -/
def bodyW7 : RequestBody := ⟨some "cats", some 5, none, none, none⟩

/-- Five search items, each with an original URL and no thumbnail. -/
def itemsW7 : List SerpItem :=
  [⟨some "u1", none⟩, ⟨some "u2", none⟩, ⟨some "u3", none⟩, ⟨some "u4", none⟩, ⟨some "u5", none⟩]

/-- A world where the search yields itemsW7 and downloads of u2 and u4 fail
while the others decode to a 100 x 50 image. -/
def worldW7 : World :=
  ⟨Except.ok itemsW7,
   fun u => if u = "u2" ∨ u = "u4" then none else some ⟨100, 50⟩⟩

/-- The page every successful URL of worldW7 produces. -/
def pageW7 : FittedPage := fittedPage ⟨100, 50⟩ "landscape" (3 / 100)

/-! ### Basic facts about the numeric model -/

lemma pyInt_of_nonneg (q : ℚ) (h : 0 ≤ q) : pyInt q = ⌊q⌋ := by
  simp [pyInt, not_lt.mpr h]

lemma A4_W_PX_eq : A4_W_PX = 2481 := by
  norm_num [A4_W_PX, A4_DPI, pyInt]

lemma A4_H_PX_eq : A4_H_PX = 3507 := by
  norm_num [A4_H_PX, A4_DPI, pyInt]

lemma pageWidth_eq (o : String) :
    pageWidth o = if o = "landscape" then 3507 else 2481 := by
  rw [pageWidth, A4_W_PX_eq, A4_H_PX_eq]

lemma pageHeight_eq (o : String) :
    pageHeight o = if o = "landscape" then 2481 else 3507 := by
  rw [pageHeight, A4_W_PX_eq, A4_H_PX_eq]

lemma pageWidth_pos (o : String) : 0 < pageWidth o := by
  rw [pageWidth_eq]; split <;> norm_num

lemma pageHeight_pos (o : String) : 0 < pageHeight o := by
  rw [pageHeight_eq]; split <;> norm_num

lemma clampMargin_nonneg (m : ℚ) : 0 ≤ clampMargin m := le_max_left 0 _

lemma clampMargin_le (m : ℚ) : clampMargin m ≤ 1 / 5 :=
  max_le (by norm_num) (min_le_left _ _)

lemma marginPx_eq_floor (o : String) (m : ℚ) :
    marginPx o m = ⌊clampMargin m * (pageWidth o : ℚ)⌋ :=
  pyInt_of_nonneg _ (mul_nonneg (clampMargin_nonneg m) (by exact_mod_cast (pageWidth_pos o).le))

lemma marginPx_nonneg (o : String) (m : ℚ) : 0 ≤ marginPx o m := by
  rw [marginPx_eq_floor]
  exact Int.floor_nonneg.mpr
    (mul_nonneg (clampMargin_nonneg m) (by exact_mod_cast (pageWidth_pos o).le))

lemma marginPx_le_fifth (o : String) (m : ℚ) :
    (marginPx o m : ℚ) ≤ (pageWidth o : ℚ) / 5 := by
  rw [marginPx_eq_floor]
  have h1 : (⌊clampMargin m * (pageWidth o : ℚ)⌋ : ℚ) ≤ clampMargin m * (pageWidth o : ℚ) :=
    Int.floor_le _
  have h2 : clampMargin m * (pageWidth o : ℚ) ≤ (1 / 5) * (pageWidth o : ℚ) :=
    mul_le_mul_of_nonneg_right (clampMargin_le m) (by exact_mod_cast (pageWidth_pos o).le)
  calc (⌊clampMargin m * (pageWidth o : ℚ)⌋ : ℚ)
      ≤ (1 / 5) * (pageWidth o : ℚ) := h1.trans h2
    _ = (pageWidth o : ℚ) / 5 := by ring

lemma contentW_ge_one (o : String) (m : ℚ) : 1 ≤ contentW o m := by
  have h1 := marginPx_le_fifth o m
  have key : (1 : ℚ) ≤ ((contentW o m : ℤ) : ℚ) := by
    have hc : ((contentW o m : ℤ) : ℚ) = (pageWidth o : ℚ) - 2 * (marginPx o m : ℚ) := by
      rw [contentW]; push_cast; ring
    rw [hc]
    by_cases ho : o = "landscape"
    · have : (pageWidth o : ℚ) = 3507 := by rw [pageWidth_eq, if_pos ho]; norm_num
      rw [this] at h1 ⊢; linarith
    · have : (pageWidth o : ℚ) = 2481 := by rw [pageWidth_eq, if_neg ho]; norm_num
      rw [this] at h1 ⊢; linarith
  exact_mod_cast key

lemma contentH_ge_one (o : String) (m : ℚ) : 1 ≤ contentH o m := by
  have h1 := marginPx_le_fifth o m
  have key : (1 : ℚ) ≤ ((contentH o m : ℤ) : ℚ) := by
    have hc : ((contentH o m : ℤ) : ℚ) = (pageHeight o : ℚ) - 2 * (marginPx o m : ℚ) := by
      rw [contentH]; push_cast; ring
    rw [hc]
    by_cases ho : o = "landscape"
    · have hw : (pageWidth o : ℚ) = 3507 := by rw [pageWidth_eq, if_pos ho]; norm_num
      have hh : (pageHeight o : ℚ) = 2481 := by rw [pageHeight_eq, if_pos ho]; norm_num
      rw [hw] at h1; rw [hh]; linarith
    · have hw : (pageWidth o : ℚ) = 2481 := by rw [pageWidth_eq, if_neg ho]; norm_num
      have hh : (pageHeight o : ℚ) = 3507 := by rw [pageHeight_eq, if_neg ho]; norm_num
      rw [hw] at h1; rw [hh]; linarith
  exact_mod_cast key

lemma contentW_le_pageWidth (o : String) (m : ℚ) : contentW o m ≤ pageWidth o := by
  have := marginPx_nonneg o m
  rw [contentW]; omega

lemma contentH_le_pageHeight (o : String) (m : ℚ) : contentH o m ≤ pageHeight o := by
  have := marginPx_nonneg o m
  rw [contentH]; omega

lemma contentW_pos_q (o : String) (m : ℚ) : (0 : ℚ) < (contentW o m : ℚ) := by
  have := contentW_ge_one o m
  have : (1 : ℚ) ≤ (contentW o m : ℚ) := by exact_mod_cast this
  linarith

lemma contentH_pos_q (o : String) (m : ℚ) : (0 : ℚ) < (contentH o m : ℚ) := by
  have := contentH_ge_one o m
  have : (1 : ℚ) ≤ (contentH o m : ℚ) := by exact_mod_cast this
  linarith

lemma scaleFactor_nonneg (img : SourceImage) (o : String) (m : ℚ) :
    0 ≤ scaleFactor img o m :=
  le_min (div_nonneg (contentW_pos_q o m).le (Nat.cast_nonneg _))
    (div_nonneg (contentH_pos_q o m).le (Nat.cast_nonneg _))

lemma scaleFactor_pos (img : SourceImage) (o : String) (m : ℚ)
    (hW : img.width ≠ 0) (hH : img.height ≠ 0) : 0 < scaleFactor img o m := by
  have hw : (0 : ℚ) < (img.width : ℚ) := by exact_mod_cast Nat.pos_of_ne_zero hW
  have hh : (0 : ℚ) < (img.height : ℚ) := by exact_mod_cast Nat.pos_of_ne_zero hH
  exact lt_min (div_pos (contentW_pos_q o m) hw) (div_pos (contentH_pos_q o m) hh)

lemma targetW_eq (img : SourceImage) (o : String) (m : ℚ) :
    (fittedPage img o m).targetW =
      max 1 ⌊(img.width : ℚ) * scaleFactor img o m⌋ := by
  show max 1 (pyInt ((img.width : ℚ) * scaleFactor img o m)) = _
  rw [pyInt_of_nonneg _ (mul_nonneg (Nat.cast_nonneg _) (scaleFactor_nonneg img o m))]

lemma targetH_eq (img : SourceImage) (o : String) (m : ℚ) :
    (fittedPage img o m).targetH =
      max 1 ⌊(img.height : ℚ) * scaleFactor img o m⌋ := by
  show max 1 (pyInt ((img.height : ℚ) * scaleFactor img o m)) = _
  rw [pyInt_of_nonneg _ (mul_nonneg (Nat.cast_nonneg _) (scaleFactor_nonneg img o m))]

lemma fit_ok (img : SourceImage) (o : String) (m : ℚ)
    (hW : img.width ≠ 0) (hH : img.height ≠ 0) :
    fit_to_a4_allow_upscale img o m = Except.ok (fittedPage img o m) := by
  rw [fit_to_a4_allow_upscale, if_neg]
  push_neg
  exact ⟨hW, hH⟩

lemma width_mul_scale_le (img : SourceImage) (o : String) (m : ℚ) (hW : img.width ≠ 0) :
    (img.width : ℚ) * scaleFactor img o m ≤ (contentW o m : ℚ) := by
  have hw : (0 : ℚ) < (img.width : ℚ) := by exact_mod_cast Nat.pos_of_ne_zero hW
  have h := min_le_left ((contentW o m : ℚ) / (img.width : ℚ))
    ((contentH o m : ℚ) / (img.height : ℚ))
  calc (img.width : ℚ) * scaleFactor img o m
      ≤ (img.width : ℚ) * ((contentW o m : ℚ) / (img.width : ℚ)) :=
        mul_le_mul_of_nonneg_left h hw.le
    _ = (contentW o m : ℚ) := by field_simp

lemma height_mul_scale_le (img : SourceImage) (o : String) (m : ℚ) (hH : img.height ≠ 0) :
    (img.height : ℚ) * scaleFactor img o m ≤ (contentH o m : ℚ) := by
  have hh : (0 : ℚ) < (img.height : ℚ) := by exact_mod_cast Nat.pos_of_ne_zero hH
  have h := min_le_right ((contentW o m : ℚ) / (img.width : ℚ))
    ((contentH o m : ℚ) / (img.height : ℚ))
  calc (img.height : ℚ) * scaleFactor img o m
      ≤ (img.height : ℚ) * ((contentH o m : ℚ) / (img.height : ℚ)) :=
        mul_le_mul_of_nonneg_left h hh.le
    _ = (contentH o m : ℚ) := by field_simp

lemma targetW_le_contentW (img : SourceImage) (o : String) (m : ℚ) (hW : img.width ≠ 0) :
    (fittedPage img o m).targetW ≤ contentW o m := by
  rw [targetW_eq]
  refine max_le (contentW_ge_one o m) ?_
  have := Int.floor_le_floor (α := ℚ) (width_mul_scale_le img o m hW)
  rwa [Int.floor_intCast] at this

lemma targetH_le_contentH (img : SourceImage) (o : String) (m : ℚ) (hH : img.height ≠ 0) :
    (fittedPage img o m).targetH ≤ contentH o m := by
  rw [targetH_eq]
  refine max_le (contentH_ge_one o m) ?_
  have := Int.floor_le_floor (α := ℚ) (height_mul_scale_le img o m hH)
  rwa [Int.floor_intCast] at this

lemma max_one_floor_close (x : ℚ) (hx : 0 < x) :
    |((max 1 ⌊x⌋ : ℤ) : ℚ) - x| < 1 := by
  have h0 : (0 : ℤ) ≤ ⌊x⌋ := Int.floor_nonneg.mpr hx.le
  by_cases h1 : (1 : ℤ) ≤ ⌊x⌋
  · rw [max_eq_right h1]
    have hle : (⌊x⌋ : ℚ) ≤ x := Int.floor_le x
    have hgt : x - 1 < (⌊x⌋ : ℚ) := Int.sub_one_lt_floor x
    rw [abs_sub_comm, abs_of_nonneg (by linarith)]
    linarith
  · have hz : ⌊x⌋ = 0 := by omega
    rw [hz, max_eq_left (by norm_num)]
    have hx1 : x < 1 := by
      have := Int.lt_floor_add_one x
      rw [hz] at this
      simpa using this
    rw [abs_of_nonneg (by push_cast; linarith)]
    push_cast
    linarith

lemma pageWidth_portrait : pageWidth "portrait" = 2481 := by
  rw [pageWidth_eq, if_neg (by decide)]

lemma pageHeight_portrait : pageHeight "portrait" = 3507 := by
  rw [pageHeight_eq, if_neg (by decide)]

lemma pageWidth_landscape : pageWidth "landscape" = 3507 := by
  rw [pageWidth_eq, if_pos rfl]

lemma pageHeight_landscape : pageHeight "landscape" = 2481 := by
  rw [pageHeight_eq, if_pos rfl]

lemma clampMargin_003 : clampMargin (3 / 100) = 3 / 100 := by
  rw [clampMargin]
  norm_num [min_def, max_def]

lemma marginPx_portrait_003 : marginPx "portrait" (3 / 100) = 74 := by
  rw [marginPx_eq_floor, clampMargin_003, pageWidth_portrait]
  norm_num

lemma marginPx_landscape_003 : marginPx "landscape" (3 / 100) = 105 := by
  rw [marginPx_eq_floor, clampMargin_003, pageWidth_landscape]
  norm_num

lemma contentW_portrait_003 : contentW "portrait" (3 / 100) = 2333 := by
  rw [contentW, marginPx_portrait_003, pageWidth_portrait]; decide

lemma contentH_portrait_003 : contentH "portrait" (3 / 100) = 3359 := by
  rw [contentH, marginPx_portrait_003, pageHeight_portrait]; decide

lemma contentW_landscape_003 : contentW "landscape" (3 / 100) = 3297 := by
  rw [contentW, marginPx_landscape_003, pageWidth_landscape]; decide

lemma contentH_landscape_003 : contentH "landscape" (3 / 100) = 2271 := by
  rw [contentH, marginPx_landscape_003, pageHeight_landscape]; decide

lemma scaleFactor_10_10 : scaleFactor ⟨10, 10⟩ "portrait" (3 / 100) = 2333 / 10 := by
  rw [scaleFactor, contentW_portrait_003, contentH_portrait_003]
  push_cast
  norm_num [min_def]

lemma scaleFactor_3_4 : scaleFactor ⟨3, 4⟩ "portrait" (3 / 100) = 2333 / 3 := by
  rw [scaleFactor, contentW_portrait_003, contentH_portrait_003]
  push_cast
  norm_num [min_def]

/-! ### Claim theorems -/

/-- C1: for every valid source image (nonzero width W and height H), every
orientation string and every margin ratio, the fitter succeeds and embeds an
image of at most the content size in each axis; the scale factor is exactly
min(content_width / W, content_height / H); a single scale is applied to both
axes (each target dimension is within one pixel of the exactly scaled
dimension), so the width/height ratio equals W/H within rounding tolerance
(|targetW * H - targetH * W| < W + H); the scale can exceed 1, so upscaling
is permitted (a 10 x 10 image gets scale 2333/10). -/
theorem C1_fit_bounds_aspect_scale (img : SourceImage) (o : String) (m : ℚ)
    (hW : img.width ≠ 0) (hH : img.height ≠ 0) :
    fit_to_a4_allow_upscale img o m = Except.ok (fittedPage img o m) ∧
    (fittedPage img o m).targetW ≤ contentW o m ∧
    (fittedPage img o m).targetH ≤ contentH o m ∧
    scaleFactor img o m =
      min ((contentW o m : ℚ) / (img.width : ℚ)) ((contentH o m : ℚ) / (img.height : ℚ)) ∧
    |((fittedPage img o m).targetW : ℚ) - (img.width : ℚ) * scaleFactor img o m| < 1 ∧
    |((fittedPage img o m).targetH : ℚ) - (img.height : ℚ) * scaleFactor img o m| < 1 ∧
    |((fittedPage img o m).targetW : ℚ) * (img.height : ℚ) -
        ((fittedPage img o m).targetH : ℚ) * (img.width : ℚ)| <
      (img.width : ℚ) + (img.height : ℚ) ∧
    1 < scaleFactor ⟨10, 10⟩ "portrait" (3 / 100) := by
  have hw : (0 : ℚ) < (img.width : ℚ) := by exact_mod_cast Nat.pos_of_ne_zero hW
  have hh : (0 : ℚ) < (img.height : ℚ) := by exact_mod_cast Nat.pos_of_ne_zero hH
  have hs := scaleFactor_pos img o m hW hH
  have aW : |((fittedPage img o m).targetW : ℚ) - (img.width : ℚ) * scaleFactor img o m| < 1 := by
    rw [targetW_eq]
    exact max_one_floor_close _ (mul_pos hw hs)
  have aH : |((fittedPage img o m).targetH : ℚ) - (img.height : ℚ) * scaleFactor img o m| < 1 := by
    rw [targetH_eq]
    exact max_one_floor_close _ (mul_pos hh hs)
  refine ⟨fit_ok img o m hW hH, targetW_le_contentW img o m hW,
    targetH_le_contentH img o m hH, rfl, aW, aH, ?_, ?_⟩
  · have key : ((fittedPage img o m).targetW : ℚ) * (img.height : ℚ) -
        ((fittedPage img o m).targetH : ℚ) * (img.width : ℚ) =
        (((fittedPage img o m).targetW : ℚ) - (img.width : ℚ) * scaleFactor img o m) *
            (img.height : ℚ) -
          (((fittedPage img o m).targetH : ℚ) - (img.height : ℚ) * scaleFactor img o m) *
            (img.width : ℚ) := by ring
    rw [key]
    have habs := abs_sub
      ((((fittedPage img o m).targetW : ℚ) - (img.width : ℚ) * scaleFactor img o m) *
        (img.height : ℚ))
      ((((fittedPage img o m).targetH : ℚ) - (img.height : ℚ) * scaleFactor img o m) *
        (img.width : ℚ))
    have e1 : |(((fittedPage img o m).targetW : ℚ) - (img.width : ℚ) * scaleFactor img o m) *
        (img.height : ℚ)| =
        |((fittedPage img o m).targetW : ℚ) - (img.width : ℚ) * scaleFactor img o m| *
          (img.height : ℚ) := by
      rw [abs_mul, abs_of_nonneg hh.le]
    have e2 : |(((fittedPage img o m).targetH : ℚ) - (img.height : ℚ) * scaleFactor img o m) *
        (img.width : ℚ)| =
        |((fittedPage img o m).targetH : ℚ) - (img.height : ℚ) * scaleFactor img o m| *
          (img.width : ℚ) := by
      rw [abs_mul, abs_of_nonneg hw.le]
    calc |(((fittedPage img o m).targetW : ℚ) - (img.width : ℚ) * scaleFactor img o m) *
            (img.height : ℚ) -
          (((fittedPage img o m).targetH : ℚ) - (img.height : ℚ) * scaleFactor img o m) *
            (img.width : ℚ)|
        ≤ |((fittedPage img o m).targetW : ℚ) - (img.width : ℚ) * scaleFactor img o m| *
            (img.height : ℚ) +
          |((fittedPage img o m).targetH : ℚ) - (img.height : ℚ) * scaleFactor img o m| *
            (img.width : ℚ) := by rw [← e1, ← e2]; exact habs
      _ < 1 * (img.height : ℚ) + 1 * (img.width : ℚ) :=
          add_lt_add (mul_lt_mul_of_pos_right aW hh) (mul_lt_mul_of_pos_right aH hw)
      _ = (img.width : ℚ) + (img.height : ℚ) := by ring
  · rw [scaleFactor_10_10]
    norm_num

/-- C1 witness: concrete 100 x 50 image, portrait, margin 0.03. -/
theorem C1_witness :
    (fittedPage ⟨100, 50⟩ "portrait" (3 / 100)).targetW ≤ contentW "portrait" (3 / 100) ∧
    1 < scaleFactor ⟨10, 10⟩ "portrait" (3 / 100) :=
  let h := C1_fit_bounds_aspect_scale ⟨100, 50⟩ "portrait" (3 / 100) (by decide) (by decide)
  ⟨h.2.1, h.2.2.2.2.2.2.2⟩

/-- C2 (amended): each target dimension equals int(image_dimension x scale),
Python int() being truncation toward zero — the floor, since these values are
nonnegative — and is floored at a minimum of 1 pixel, so the resized image is
never zero-sized in either axis.  (The original claim said round(...): the
code truncates instead of rounding to nearest.) -/
theorem C2_target_dims_truncate_not_round (img : SourceImage) (o : String) (m : ℚ)
    (hW : img.width ≠ 0) (hH : img.height ≠ 0) :
    fit_to_a4_allow_upscale img o m = Except.ok (fittedPage img o m) ∧
    (fittedPage img o m).targetW = max 1 ⌊(img.width : ℚ) * scaleFactor img o m⌋ ∧
    (fittedPage img o m).targetH = max 1 ⌊(img.height : ℚ) * scaleFactor img o m⌋ ∧
    1 ≤ (fittedPage img o m).targetW ∧ 1 ≤ (fittedPage img o m).targetH :=
  ⟨fit_ok img o m hW hH, targetW_eq img o m, targetH_eq img o m,
   by rw [targetW_eq]; exact le_max_left 1 _,
   by rw [targetH_eq]; exact le_max_left 1 _⟩

/-- C2 witness: concrete 3 x 4 image, portrait, margin 0.03. -/
theorem C2_witness :
    (fittedPage ⟨3, 4⟩ "portrait" (3 / 100)).targetH =
      max 1 ⌊(((⟨3, 4⟩ : SourceImage).height : ℚ)) * scaleFactor ⟨3, 4⟩ "portrait" (3 / 100)⌋ ∧
    1 ≤ (fittedPage ⟨3, 4⟩ "portrait" (3 / 100)).targetH :=
  let h := C2_target_dims_truncate_not_round ⟨3, 4⟩ "portrait" (3 / 100) (by decide) (by decide)
  ⟨h.2.2.1, h.2.2.2.2⟩

/-- C2 counterexample: for a 3 x 4 image on a portrait page with margin 0.03,
the scale is 2333/3, so height x scale = 9332/3 = 3110.67; the code's target
height is 3110 (truncation), but round(9332/3) = 3111 — target dimensions do
not equal round(image_dimension x scale). -/
theorem C2_cx_truncation_differs_from_round :
    (fittedPage ⟨3, 4⟩ "portrait" (3 / 100)).targetH = 3110 ∧
    ((⟨3, 4⟩ : SourceImage).height : ℚ) * scaleFactor ⟨3, 4⟩ "portrait" (3 / 100) = 9332 / 3 ∧
    round ((9332 : ℚ) / 3) = 3111 ∧ (3110 : ℤ) ≠ 3111 := by
  refine ⟨?_, ?_, ?_, by decide⟩
  · rw [targetH_eq, scaleFactor_3_4]
    norm_num [max_def]
  · rw [scaleFactor_3_4]
    norm_num
  · rw [round_eq]
    norm_num

/-- C3: the auto orientation selector is a pure function of the aspect ratio:
landscape iff width/height >= 1 (iff height <= width), portrait iff
width < height, a square image gives landscape, a zero-height image is
treated as aspect 1.0 and gives landscape, and an explicit non-auto mode is
passed through verbatim without inspecting the image. -/
theorem C3_orientation_selector (w h : ℕ) (mode : String) (img : SourceImage)
    (hh : h ≠ 0) :
    (choose_orientation_auto ⟨w, h⟩ 1 = "landscape" ↔ 1 ≤ (w : ℚ) / (h : ℚ)) ∧
    ((1 : ℚ) ≤ (w : ℚ) / (h : ℚ) ↔ h ≤ w) ∧
    (choose_orientation_auto ⟨w, h⟩ 1 = "portrait" ↔ w < h) ∧
    choose_orientation_auto ⟨w, 0⟩ 1 = "landscape" ∧
    choose_orientation_auto ⟨w, w⟩ 1 = "landscape" ∧
    (mode = "auto" → selectOrient mode img = choose_orientation_auto img 1) ∧
    (mode ≠ "auto" → selectOrient mode img = mode) := by
  have hq : (0 : ℚ) < (h : ℚ) := by exact_mod_cast Nat.pos_of_ne_zero hh
  have hiff : (1 : ℚ) ≤ (w : ℚ) / (h : ℚ) ↔ (h : ℚ) ≤ (w : ℚ) := one_le_div hq
  have hcast : ((h : ℚ) ≤ (w : ℚ)) ↔ h ≤ w := Nat.cast_le
  have e1 : choose_orientation_auto ⟨w, h⟩ 1 =
      if (1 : ℚ) ≤ (w : ℚ) / (h : ℚ) then "landscape" else "portrait" := by
    show (if (if h ≠ 0 then (w : ℚ) / (h : ℚ) else 1) ≥ 1 then "landscape" else "portrait") = _
    rw [if_pos hh]
  refine ⟨?_, hiff.trans hcast, ?_, ?_, ?_, ?_, ?_⟩
  · rw [e1]
    split_ifs with hc
    · exact iff_of_true rfl hc
    · exact iff_of_false (by decide) hc
  · rw [e1]
    split_ifs with hc
    · exact iff_of_false (by decide) (not_lt.mpr (hcast.mp (hiff.mp hc)))
    · refine iff_of_true rfl (lt_of_not_ge fun hle => hc (hiff.mpr (hcast.mpr hle)))
  · simp [choose_orientation_auto]
  · by_cases hw : w = 0
    · subst hw; simp [choose_orientation_auto]
    · have hd : ((w : ℚ)) / ((w : ℚ)) = 1 := div_self (by exact_mod_cast hw)
      simp [choose_orientation_auto, hw, hd]
  · intro hm; rw [selectOrient, if_pos hm]
  · intro hm; rw [selectOrient, if_neg hm]

/-- C3 witness: a 5 x 3 image in auto mode is landscape; an explicit
"portrait" mode is passed through verbatim. -/
theorem C3_witness :
    choose_orientation_auto ⟨5, 3⟩ 1 = "landscape" ∧
    selectOrient "portrait" ⟨5, 3⟩ = "portrait" := by
  have h := C3_orientation_selector 5 3 "portrait" ⟨5, 3⟩ (by decide)
  exact ⟨h.1.mpr (by norm_num), h.2.2.2.2.2.2 (by decide)⟩

/-- C5 (amended): the effective margin ratio is the input clamped to
[0, 0.2]; the margin in pixels is int(clamped ratio x page width) — the floor
of the product, a truncation the original claim omitted — always relative to
the oriented page width (3507 px for landscape, 2481 px otherwise), never the
page height; the content area is page_width - 2*margin by
page_height - 2*margin. -/
theorem C5_margin_clamp_width_relative (o : String) (m : ℚ) :
    (m < 0 → clampMargin m = 0) ∧
    (1 / 5 < m → clampMargin m = 1 / 5) ∧
    (0 ≤ m → m ≤ 1 / 5 → clampMargin m = m) ∧
    marginPx o m = ⌊clampMargin m * (pageWidth o : ℚ)⌋ ∧
    (o = "landscape" → marginPx o m = ⌊clampMargin m * (3507 : ℚ)⌋) ∧
    (o ≠ "landscape" → marginPx o m = ⌊clampMargin m * (2481 : ℚ)⌋) ∧
    contentW o m = pageWidth o - 2 * marginPx o m ∧
    contentH o m = pageHeight o - 2 * marginPx o m := by
  refine ⟨?_, ?_, ?_, marginPx_eq_floor o m, ?_, ?_, rfl, rfl⟩
  · intro hm
    rw [clampMargin, min_eq_right (by linarith), max_eq_left (by linarith)]
  · intro hm
    rw [clampMargin, min_eq_left (by linarith), max_eq_right (by norm_num)]
  · intro h0 h5
    rw [clampMargin, min_eq_right h5, max_eq_right h0]
  · intro ho
    rw [marginPx_eq_floor, pageWidth_eq, if_pos ho]
    norm_num
  · intro ho
    rw [marginPx_eq_floor, pageWidth_eq, if_neg ho]
    norm_num

/-- C5 witness: clamping at both ends and the landscape margin formula at
concrete inputs. -/
theorem C5_witness :
    clampMargin (-1) = 0 ∧ clampMargin (1 / 2) = 1 / 5 ∧
    marginPx "landscape" (3 / 100) = ⌊clampMargin (3 / 100) * (3507 : ℚ)⌋ := by
  have h1 := C5_margin_clamp_width_relative "landscape" (-1 : ℚ)
  have h2 := C5_margin_clamp_width_relative "landscape" (1 / 2 : ℚ)
  have h3 := C5_margin_clamp_width_relative "landscape" (3 / 100 : ℚ)
  exact ⟨h1.1 (by norm_num), h2.2.1 (by norm_num), h3.2.2.2.2.1 rfl⟩

/-- C5 counterexample: at margin ratio 0.03 on a portrait page the margin is
74 pixels, but the clamped ratio times the page width is 7443/100 = 74.43 —
the margin does not literally equal ratio x width; it is its truncation. -/
theorem C5_cx_margin_is_truncated :
    marginPx "portrait" (3 / 100) = 74 ∧
    clampMargin (3 / 100) * (pageWidth "portrait" : ℚ) = 7443 / 100 ∧
    ((74 : ℤ) : ℚ) ≠ 7443 / 100 := by
  refine ⟨marginPx_portrait_003, ?_, by norm_num⟩
  rw [clampMargin_003, pageWidth_portrait]
  norm_num

/-- C6: the document encoder fails with the EmptyPageSet error on zero pages;
on a non-empty list it returns one document whose base is the first input
page, whose appended pages are the remaining input pages in order, and whose
page sequence is exactly the input (hence exactly N pages in input order). -/
theorem C6_encoder_empty_and_order (dpi : ℤ) (p : FittedPage) (rest : List FittedPage) :
    make_pdf_bytes [] dpi = Except.error "No pages to save." ∧
    make_pdf_bytes (p :: rest) dpi = Except.ok ⟨p, rest, dpi⟩ ∧
    PdfDoc.pages ⟨p, rest, dpi⟩ = p :: rest ∧
    (PdfDoc.pages ⟨p, rest, dpi⟩).length = (p :: rest).length :=
  ⟨rfl, rfl, rfl, rfl⟩

/-- C9 (amended): the requested image count is clamped to [1, 20] before use,
except that the falsy value 0 is first replaced by the default 6 (Python
`num or 6`), so 0 becomes 6, not 1; negative integers become 1, integers
above 20 become 20, in-range values pass through; 6 is the default when the
field is absent; the search takes at most the clamped number of URLs. -/
theorem C9_count_clamping (n : ℤ) (body : RequestBody) (query key : String)
    (items : List SerpItem) (hkey : key ≠ "") :
    (n < 0 → serpapiClampNum n = 1) ∧
    serpapiClampNum 0 = 6 ∧
    (1 ≤ n → n ≤ 20 → serpapiClampNum n = n) ∧
    (20 < n → serpapiClampNum n = 20) ∧
    1 ≤ serpapiClampNum n ∧ serpapiClampNum n ≤ 20 ∧
    (body.num_images = none → effNum body = 6) ∧
    ∃ urls, google_images_serpapi query n key (Except.ok items) = Except.ok urls ∧
      urls.length ≤ (serpapiClampNum n).toNat := by
  refine ⟨?_, by decide, ?_, ?_, ?_, ?_, ?_, ?_⟩
  · intro hn
    rw [serpapiClampNum, if_neg (by omega)]
    omega
  · intro h1 h20
    rw [serpapiClampNum, if_neg (by omega)]
    omega
  · intro hn
    rw [serpapiClampNum, if_neg (by omega)]
    omega
  · rw [serpapiClampNum]; split <;> omega
  · rw [serpapiClampNum]; split <;> omega
  · intro hnone
    rw [effNum, hnone]
    rfl
  · refine ⟨(items.take (serpapiClampNum n).toNat).filterMap itemUrl, ?_, ?_⟩
    · rw [google_images_serpapi, if_neg hkey]
    · exact le_trans (List.length_filterMap_le _ _) (by simp)

/-- C9 witness: count 25 is clamped to 20; an absent field defaults to 6. -/
theorem C9_witness :
    serpapiClampNum 25 = 20 ∧ effNum ⟨some "q", none, none, none, none⟩ = 6 := by
  have h := C9_count_clamping 25 ⟨some "q", none, none, none, none⟩ "q" "k" [] (by decide)
  exact ⟨h.2.2.2.1 (by decide), h.2.2.2.2.2.2.1 rfl⟩

/-- C9 counterexample: a requested count of 0 is below 1 but is clamped to 6
(the Python `or` default), not to 1 as the claim states. -/
theorem C9_cx_zero_becomes_six : serpapiClampNum 0 = 6 ∧ (6 : ℤ) ≠ 1 := by decide

/-- C10: for every valid image, orientation string and margin ratio, the
fitter succeeds and the output page is exactly 3507 x 2481 pixels when the
orientation is the exact string "landscape" and exactly 2481 x 3507 pixels
for every other string; the A4 constants evaluate to 2481 and 3507. -/
theorem C10_fixed_page_dimensions (img : SourceImage) (o : String) (m : ℚ)
    (hW : img.width ≠ 0) (hH : img.height ≠ 0) :
    A4_W_PX = 2481 ∧ A4_H_PX = 3507 ∧
    fit_to_a4_allow_upscale img o m = Except.ok (fittedPage img o m) ∧
    (o = "landscape" →
      (fittedPage img o m).pageW = 3507 ∧ (fittedPage img o m).pageH = 2481) ∧
    (o ≠ "landscape" →
      (fittedPage img o m).pageW = 2481 ∧ (fittedPage img o m).pageH = 3507) := by
  refine ⟨A4_W_PX_eq, A4_H_PX_eq, fit_ok img o m hW hH, ?_, ?_⟩
  · intro ho
    constructor
    · show pageWidth o = 3507
      rw [pageWidth_eq, if_pos ho]
    · show pageHeight o = 2481
      rw [pageHeight_eq, if_pos ho]
  · intro ho
    constructor
    · show pageWidth o = 2481
      rw [pageWidth_eq, if_neg ho]
    · show pageHeight o = 3507
      rw [pageHeight_eq, if_neg ho]

/-- C10 witness: an invalid orientation string still yields the portrait page
size. -/
theorem C10_witness :
    (fittedPage ⟨7, 9⟩ "sideways" (1 / 10)).pageW = 2481 ∧
    (fittedPage ⟨7, 9⟩ "sideways" (1 / 10)).pageH = 3507 :=
  (C10_fixed_page_dimensions ⟨7, 9⟩ "sideways" (1 / 10) (by decide) (by decide)).2.2.2.2
    (by decide)

/-- C8: the fitter centers the resized image: each paste offset equals
(page dimension - target dimension) / 2 truncated toward zero (the numerator
is nonnegative, so Python floor division equals truncation), computed
independently per axis, on a canvas filled with white. -/
theorem C8_centering_offsets (img : SourceImage) (o : String) (m : ℚ)
    (hW : img.width ≠ 0) (hH : img.height ≠ 0) :
    fit_to_a4_allow_upscale img o m = Except.ok (fittedPage img o m) ∧
    (fittedPage img o m).offX =
      Int.tdiv ((fittedPage img o m).pageW - (fittedPage img o m).targetW) 2 ∧
    (fittedPage img o m).offY =
      Int.tdiv ((fittedPage img o m).pageH - (fittedPage img o m).targetH) 2 ∧
    0 ≤ (fittedPage img o m).pageW - (fittedPage img o m).targetW ∧
    0 ≤ (fittedPage img o m).pageH - (fittedPage img o m).targetH ∧
    (fittedPage img o m).background = "white" := by
  have h1 : (fittedPage img o m).targetW ≤ pageWidth o :=
    (targetW_le_contentW img o m hW).trans (contentW_le_pageWidth o m)
  have h2 : (fittedPage img o m).targetH ≤ pageHeight o :=
    (targetH_le_contentH img o m hH).trans (contentH_le_pageHeight o m)
  refine ⟨fit_ok img o m hW hH, ?_, ?_, ?_, ?_, rfl⟩
  · show ((fittedPage img o m).pageW - (fittedPage img o m).targetW).fdiv 2 = _
    exact Int.fdiv_eq_tdiv (sub_nonneg.mpr h1) (by norm_num)
  · show ((fittedPage img o m).pageH - (fittedPage img o m).targetH).fdiv 2 = _
    exact Int.fdiv_eq_tdiv (sub_nonneg.mpr h2) (by norm_num)
  · exact sub_nonneg.mpr h1
  · exact sub_nonneg.mpr h2

/-- C8 witness: concrete 100 x 50 image on a landscape page. -/
theorem C8_witness :
    (fittedPage ⟨100, 50⟩ "landscape" (3 / 100)).offX =
      Int.tdiv ((fittedPage ⟨100, 50⟩ "landscape" (3 / 100)).pageW -
        (fittedPage ⟨100, 50⟩ "landscape" (3 / 100)).targetW) 2 ∧
    (fittedPage ⟨100, 50⟩ "landscape" (3 / 100)).background = "white" :=
  let h := C8_centering_offsets ⟨100, 50⟩ "landscape" (3 / 100) (by decide) (by decide)
  ⟨h.2.1, h.2.2.2.2.2⟩

/-- C4 (amended): for every POST whose querytext is missing, empty or
whitespace-only, no outbound network call is made; the response is the 400
validation error provided the SERPAPI_KEY environment value is non-empty
after stripping.  (When the key is absent the code answers 500 before the
query check — see the counterexample — though still with no network call.) -/
theorem C4_empty_query_no_network (body : RequestBody) (env : String) (world : World)
    (hkey : pyStrip env ≠ "") (hq : effQuery body = "") :
    do_POST body env world = (HttpResponse.jsonError 400 "querytext is required", []) := by
  rw [do_POST]
  simp [hq, if_neg hkey]

/-- C4 witness: whitespace-only querytext with a configured key gives 400 and
an empty call list. -/
theorem C4_witness :
    pyStrip "KEY" ≠ "" ∧
    do_POST ⟨some " ", none, none, none, none⟩ "KEY" noopWorld =
      (HttpResponse.jsonError 400 "querytext is required", []) :=
  ⟨by decide, C4_empty_query_no_network ⟨some " ", none, none, none, none⟩ "KEY" noopWorld
    (by decide) (by decide)⟩

/-- C4 counterexample: with a whitespace-only querytext but an empty
SERPAPI_KEY environment value, the handler answers 500 (missing key), not
400 — the code checks the key before validating the query, so the claim's
"regardless of the environment configuration" fails (no network call is made
either way). -/
theorem C4_cx_env_checked_before_query :
    (do_POST ⟨some " ", none, none, none, none⟩ "" noopWorld).1 =
      HttpResponse.jsonError 500 "Missing SERPAPI_KEY env var" ∧
    (do_POST ⟨some " ", none, none, none, none⟩ "" noopWorld).1 ≠
      HttpResponse.jsonError 400 "querytext is required" ∧
    (do_POST ⟨some " ", none, none, none, none⟩ "" noopWorld).2 = [] := by
  refine ⟨rfl, by decide, rfl⟩

/-- C7: on the success path (key configured, query non-empty, search
returned items yielding a non-empty URL list), the pages are exactly the
per-URL results of download-and-fit with failures skipped, in URL order
(List.filterMap); if every URL fails the handler answers 502 "No pages
created" (502, not 500); otherwise it returns a PDF whose page list is
exactly the successfully processed pages in order. -/
theorem C7_per_url_failures_skipped (body : RequestBody) (env : String) (world : World)
    (items : List SerpItem)
    (hkey : pyStrip env ≠ "") (hq : effQuery body ≠ "")
    (hs : world.searchOutcome = Except.ok items)
    (hurls : requestUrls body items ≠ []) :
    ((requestUrls body items).filterMap
        (processUrl world (effOrient body) (effMargin body)) = [] →
      (do_POST body env world).1 = HttpResponse.jsonError 502 "No pages created" ∧
      (502 : ℤ) ≠ 500) ∧
    ∀ p ps, (requestUrls body items).filterMap
        (processUrl world (effOrient body) (effMargin body)) = p :: ps →
      (do_POST body env world).1 =
        HttpResponse.pdfFile ⟨p, ps, A4_DPI⟩ (effFilename body) ∧
      PdfDoc.pages ⟨p, ps, A4_DPI⟩ =
        (requestUrls body items).filterMap (processUrl world (effOrient body) (effMargin body)) := by
  have hg : google_images_serpapi (effQuery body) (effNum body) (pyStrip env)
      world.searchOutcome = Except.ok (requestUrls body items) := by
    rw [hs, google_images_serpapi, if_neg hkey]
    rfl
  constructor
  · intro hpages
    rw [do_POST]
    simp only [if_neg hkey, if_neg hq, hg, if_neg hurls, hpages, if_pos rfl]
    exact ⟨rfl, by decide⟩
  · intro p ps hpages
    rw [do_POST]
    simp only [if_neg hkey, if_neg hq, hg, if_neg hurls, hpages,
      if_neg (List.cons_ne_nil p ps), make_pdf_bytes]
    exact ⟨trivial, rfl⟩

/-- The per-URL processing outcome of worldW7: u1, u3, u5 give the landscape
100 x 50 page, u2 and u4 fail and are skipped. -/
lemma worldW7_pages :
    (requestUrls bodyW7 itemsW7).filterMap
      (processUrl worldW7 (effOrient bodyW7) (effMargin bodyW7)) =
      [pageW7, pageW7, pageW7] := by
  have hu : requestUrls bodyW7 itemsW7 = ["u1", "u2", "u3", "u4", "u5"] := by decide
  have horient : effOrient bodyW7 = "auto" := by decide
  have hmargin : effMargin bodyW7 = 3 / 100 := rfl
  have hchoose : choose_orientation_auto ⟨100, 50⟩ 1 = "landscape" := by
    rw [choose_orientation_auto]
    norm_num
  have hsel : selectOrient "auto" ⟨100, 50⟩ = "landscape" := by
    rw [selectOrient, if_pos rfl, hchoose]
  have hfit : fit_to_a4_allow_upscale ⟨100, 50⟩ "landscape" (3 / 100) =
      Except.ok pageW7 := fit_ok ⟨100, 50⟩ "landscape" (3 / 100) (by decide) (by decide)
  have pOk : ∀ u, worldW7.fetchImage u = some ⟨100, 50⟩ →
      processUrl worldW7 "auto" (3 / 100) u = some pageW7 := by
    intro u hu2
    rw [processUrl, hu2]
    show (fit_to_a4_allow_upscale ⟨100, 50⟩ (selectOrient "auto" ⟨100, 50⟩)
      (3 / 100)).toOption = _
    rw [hsel, hfit]
    rfl
  have pFail : ∀ u, worldW7.fetchImage u = none →
      processUrl worldW7 "auto" (3 / 100) u = none := by
    intro u hu2
    rw [processUrl, hu2]
    rfl
  rw [hu, horient, hmargin]
  have h1 := pOk "u1" (by decide)
  have h2 := pFail "u2" (by decide)
  have h3 := pOk "u3" (by decide)
  have h4 := pFail "u4" (by decide)
  have h5 := pOk "u5" (by decide)
  simp [List.filterMap_cons, h1, h2, h3, h4, h5]

/-- C7 witness: five URLs, downloads of u2 and u4 fail; the PDF contains
exactly the three pages of the successful URLs in order. -/
theorem C7_witness :
    (do_POST bodyW7 "KEY" worldW7).1 =
      HttpResponse.pdfFile ⟨pageW7, [pageW7, pageW7], A4_DPI⟩ "google_images.pdf" ∧
    PdfDoc.pages ⟨pageW7, [pageW7, pageW7], A4_DPI⟩ = [pageW7, pageW7, pageW7] := by
  have h := (C7_per_url_failures_skipped bodyW7 "KEY" worldW7 itemsW7 (by decide) (by decide)
    rfl (by decide)).2 pageW7 [pageW7, pageW7] worldW7_pages
  have hf : effFilename bodyW7 = "google_images.pdf" := by decide
  rw [hf] at h
  exact ⟨h.1, h.2.trans worldW7_pages⟩

end ESMaker
